import Mathlib

/-!
Shallow embedding of the resilient database layer of `hekimapro/utils`
(`database/transaction.go`, `database/connection.go` and the database error
classifier), together with theorems settling the specification claims about
it.  Go strings are Lean `String`s; the Go `error` interface is the inductive
`GoError`; `nil`-able errors are `Option GoError`.  Contexts are modelled by
the boolean "done" observations the code makes at its checkpoints; the
classifier is modelled on its non-cancelled path (its public entry point
always allocates a fresh 5-second context).
-/

/-- Go `error` values relevant to this layer: `errors.New` strings,
`fmt.Errorf("%s: %w", msg, err)` wrappers, `pq.Error` driver errors
(code, constraint, table, column, message), and the two context sentinel
errors compared with `errors.Is`. -/
inductive GoError where
  | simple (msg : String)
  | wrapped (msg : String) (inner : GoError)
  | pq (code constraint table column message : String)
  | ctxCanceled
  | ctxDeadlineExceeded
deriving Repr, DecidableEq

/-- `Error()` string of a `GoError`.  `pq.Error.Error()` returns
`"pq: " + e.Message`; the context sentinels carry their standard texts. -/
def GoError.errorString : GoError → String
  | .simple m => m
  | .wrapped m inner => m ++ ": " ++ inner.errorString
  | .pq _ _ _ _ message => "pq: " ++ message
  | .ctxCanceled => "context canceled"
  | .ctxDeadlineExceeded => "context deadline exceeded"

/-- The unwrap chain walked by `errors.Is` / `errors.As`: the error itself
followed by the chain of its `Unwrap()` targets. -/
def GoError.chain : GoError → List GoError
  | .wrapped m inner => .wrapped m inner :: inner.chain
  | e => [e]

/-- `errors.Is(err, context.Canceled) || errors.Is(err, context.DeadlineExceeded)`. -/
def errorsIsCancelOrDeadline (e : GoError) : Bool :=
  e.chain.any fun x => x = GoError.ctxCanceled || x = GoError.ctxDeadlineExceeded

/-- The fields of a `pq.Error` used by the classifier. -/
structure PqFields where
  code : String
  constraint : String
  table : String
  column : String
  message : String
deriving Repr, DecidableEq

/-- `errors.As(err, &pqErr)`: find the first `pq.Error` in the unwrap chain. -/
def errorsAsPq : GoError → Option PqFields
  | .pq c cn t col m => some ⟨c, cn, t, col, m⟩
  | .wrapped _ inner => errorsAsPq inner
  | _ => none

/-- `helpers.WrapError(err, message)`: `errors.New(message)` when `err` is
nil, otherwise `fmt.Errorf("%s: %w", message, err)`. -/
def WrapError (err : Option GoError) (message : String) : GoError :=
  match err with
  | none => .simple message
  | some e => .wrapped message e

/- Go string helpers, transcribed on `List Char` so that everything is
kernel-computable. -/

/-- Does `pat` occur at the front of `s`? (helper for substring search). -/
def startsWithList : List Char → List Char → Bool
  | [], _ => true
  | _ :: _, [] => false
  | p :: ps, c :: cs => p = c && startsWithList ps cs

/-- Occurrence of `pat` anywhere in the list (helper for `strings.Contains`). -/
def containsList (pat : List Char) : List Char → Bool
  | [] => pat.isEmpty
  | c :: cs => startsWithList pat (c :: cs) || containsList pat cs

/-- Go `strings.Contains(s, sub)`. -/
def goContains (s sub : String) : Bool :=
  containsList sub.data s.data

/-- Go `strings.ToLower` (ASCII inputs in this layer). -/
def goToLower (s : String) : String :=
  ⟨s.data.map Char.toLower⟩

/-- Go `strings.Split(s, sep)` for the single-character separators used here. -/
def goSplitChar (c : Char) (s : String) : List String :=
  (s.data.splitOn c).map fun l => ⟨l⟩

/-- Go `strings.Join(parts, sep)`. -/
def goJoin (sep : String) : List String → String
  | [] => ""
  | [a] => a
  | a :: b :: rest => a ++ sep ++ goJoin sep (b :: rest)

/-- Go `strings.TrimSuffix(s, suf)`. -/
def goTrimSuffixStr (s suf : String) : String :=
  if startsWithList suf.data.reverse s.data.reverse then
    ⟨s.data.take (s.data.length - suf.data.length)⟩
  else s

/-- Whitespace as trimmed by `strings.TrimSpace` (ASCII cases). -/
def isSpaceChar (c : Char) : Bool :=
  c = ' ' || c = '\t' || c = '\n' || c = '\r'

/-- Go `strings.TrimSpace`. -/
def goTrimSpace (s : String) : String :=
  ⟨((s.data.dropWhile isSpaceChar).reverse.dropWhile isSpaceChar).reverse⟩

/-- Go `strings.ReplaceAll(s, old, new)` for single-character arguments. -/
def goReplaceChar (a b : Char) (s : String) : String :=
  ⟨s.data.map fun c => if c = a then b else c⟩

/- The error classifier (`database` package, error-analysis file). -/

/-- The `DatabaseError` struct produced by the classifier. -/
structure DatabaseError where
  OriginalError : GoError
  ErrorType : String
  Constraint : String
  Message : String
  Table : String
  Column : String
deriving Repr, DecidableEq

/-- `extractColumnLabel`: trim a trailing `"_key"`, split on `'_'`, drop the
leading table-name segment and join the rest with spaces. -/
def extractColumnLabel (constraint : String) : String :=
  let constraint := goTrimSuffixStr constraint "_key"
  let parts := goSplitChar '_' constraint
  if parts.length ≤ 1 then constraint
  else goJoin " " (parts.drop 1)

/-- `generateDuplicateErrorMessage`. -/
def generateDuplicateErrorMessage (constraint _table : String) : String :=
  if constraint = "" then "A record with these details already exists"
  else
    let fieldName := extractColumnLabel constraint
    if fieldName ≠ "" then fieldName ++ " already exists"
    else "A duplicate record already exists"

/-- `generateForeignKeyErrorMessage`. -/
def generateForeignKeyErrorMessage (constraint _table : String) : String :=
  if constraint = "" then "The referenced record does not exist"
  else
    let parts := goSplitChar '_' constraint
    if parts.length ≥ 2 then
      "The referenced record in '" ++ parts.headD "" ++ "' does not exist"
    else "Referenced record does not exist"

/-- `generateNotNullErrorMessage`. -/
def generateNotNullErrorMessage (column _table : String) : String :=
  if column = "" then "Required field cannot be empty"
  else goReplaceChar '_' ' ' column ++ " is required and cannot be empty"

/-- `generateCheckConstraintErrorMessage`. -/
def generateCheckConstraintErrorMessage (constraint : String) : String :=
  if constraint = "" then "The provided data does not meet the required constraints"
  else "Data validation failed for constraint '" ++ constraint ++ "'"

/-- The `switch pqErr.Code` of `analyzeDatabaseErrorWithContext`, returning
the `(ErrorType, Message)` pair. -/
def classifyPqCode (p : PqFields) : String × String :=
  if p.code = "23505" then ("duplicate", generateDuplicateErrorMessage p.constraint p.table)
  else if p.code = "23503" then ("foreign_key", generateForeignKeyErrorMessage p.constraint p.table)
  else if p.code = "23502" then ("not_null", generateNotNullErrorMessage p.column p.table)
  else if p.code = "23514" then ("check_constraint", generateCheckConstraintErrorMessage p.constraint)
  else if p.code = "42P01" then ("undefined_table", "Table '" ++ p.table ++ "' does not exist")
  else if p.code = "42703" then
    ("undefined_column", "Column '" ++ p.column ++ "' does not exist in table '" ++ p.table ++ "'")
  else if p.code = "28000" || p.code = "28P01" then ("authentication", "Database authentication failed")
  else if p.code = "55P03" then ("lock_timeout", "Database lock timeout occurred")
  else if p.code = "53300" then ("too_many_connections", "Too many database connections")
  else if p.code = "57014" then ("query_cancelled", "Database query was cancelled")
  else ("unknown", "Database error: " ++ p.message)

/-- `AnalyzeDatabaseError` (non-cancelled path of
`analyzeDatabaseErrorWithContext`): nil errors analyze to nil; a `pq.Error`
in the unwrap chain is classified by its SQL-state code; anything else is
`generic` with the error text as message. -/
def AnalyzeDatabaseError : Option GoError → Option DatabaseError
  | none => none
  | some err =>
    match errorsAsPq err with
    | some p =>
      let tm := classifyPqCode p
      some ⟨err, tm.1, p.constraint, tm.2, p.table, p.column⟩
    | none => some ⟨err, "generic", "", err.errorString, "", ""⟩

/-- `isRetryableTransactionError`: context cancellations are never retryable;
otherwise the classified kind must be in the retryable set. -/
def isRetryableTransactionError : Option GoError → Bool
  | none => false
  | some err =>
    if errorsIsCancelOrDeadline err then false
    else
      match AnalyzeDatabaseError (some err) with
      | some dbError =>
        dbError.ErrorType = "lock_timeout" || dbError.ErrorType = "too_many_connections" ||
          dbError.ErrorType = "query_cancelled"
      | none => false

/-- `IsConnectionError`. -/
def IsConnectionError : Option GoError → Bool
  | none => false
  | some err =>
    match AnalyzeDatabaseError (some err) with
    | none => false
    | some dbError =>
      dbError.ErrorType = "authentication" || dbError.ErrorType = "too_many_connections" ||
        goContains (goToLower err.errorString) "connection" ||
        goContains (goToLower err.errorString) "connect"

/-- `IsTimeoutError`. -/
def IsTimeoutError : Option GoError → Bool
  | none => false
  | some err =>
    match AnalyzeDatabaseError (some err) with
    | none => false
    | some dbError =>
      dbError.ErrorType = "query_cancelled" ||
        goContains (goToLower err.errorString) "timeout" ||
        goContains (goToLower err.errorString) "deadline"

/-- The `retryableErrors` map literal of `ShouldRetryError`, as the
association list the Go map lookup consults. -/
def shouldRetryTable : List (String × Bool) :=
  [("lock_timeout", true), ("query_cancelled", true), ("authentication", false),
   ("too_many_connections", true), ("duplicate", false), ("foreign_key", false),
   ("not_null", false)]

/-- `ShouldRetryError`: look the classified kind up in the table; on a miss,
fall back to the connection / timeout message heuristics. -/
def ShouldRetryError : Option GoError → Bool
  | none => false
  | some err =>
    match AnalyzeDatabaseError (some err) with
    | none => false
    | some dbError =>
      match List.lookup dbError.ErrorType shouldRetryTable with
      | some b => b
      | none => IsConnectionError (some err) || IsTimeoutError (some err)

/- The transaction executor (`transactionWithContext`).  One invocation is
determined by: what the three context-done checks observe, what `BeginTx`,
the operation, `Rollback` and `Commit` return.  The caller-supplied
operation either returns nil, returns an error, or panics; a panic
propagates to the deferred cleanup, whose `recover()` stops it. -/

/-- Outcome of running the caller-supplied `TransactionFunction`. -/
inductive OpOutcome where
  | ok
  | err (e : GoError)
  | panicWith (payload : String)
deriving Repr, DecidableEq

/-- Environment of one `transactionWithContext` invocation: the context-done
observations at the three checkpoints, `ctx.Err()` when consulted, and the
results of `BeginTx`, the operation, `Rollback` and `Commit`
(`none` = success). -/
structure TxEnv where
  ctxDoneAtStart : Bool
  ctxDoneBeforeOp : Bool
  ctxDoneBeforeCommit : Bool
  ctxErr : GoError
  beginResult : Option GoError
  opResult : OpOutcome
  rollbackResult : Option GoError
  commitResult : Option GoError
deriving Repr, DecidableEq

/-- Result of one `transactionWithContext` invocation: the returned error and
how many `Commit` and `Rollback` calls were attempted. -/
structure TxResult where
  error : Option GoError
  commits : Nat
  rollbacks : Nat
deriving Repr, DecidableEq

/-- The function body between `BeginTx` and the deferred cleanup: the
context check before the operation, then the operation itself.  A panic is
an `Except.error` carrying the payload. -/
def runTxBody (env : TxEnv) : Except String (Option GoError) :=
  if env.ctxDoneBeforeOp then
    Except.ok (some (WrapError (some env.ctxErr) "transaction cancelled before operation execution"))
  else
    match env.opResult with
    | .ok => Except.ok none
    | .err e => Except.ok (some e)
    | .panicWith p => Except.error p

/-- The deferred cleanup of `transactionWithContext`: `recover()` yields the
panic payload when a panic occurred; then the panic branch, the error
branch, the pre-commit cancellation branch and the commit branch assign the
named return value exactly as the source does.  Returns the final error and
the number of commit and rollback attempts. -/
def txCleanup (env : TxEnv) (recovered : Option String) (err : Option GoError) :
    Option GoError × Nat × Nat :=
  match recovered with
  | some payload =>
    match env.rollbackResult with
    | some rollbackErr => (some (WrapError (some rollbackErr) "rollback failed after panic"), 0, 1)
    | none => (some (WrapError (some (GoError.simple payload)) "transaction panicked"), 0, 1)
  | none =>
    match err with
    | some e =>
      match env.rollbackResult with
      | some rollbackErr => (some (WrapError (some rollbackErr) "rollback failed"), 0, 1)
      | none => (some e, 0, 1)
    | none =>
      if env.ctxDoneBeforeCommit then
        match env.rollbackResult with
        | some rollbackErr =>
          (some (WrapError (some rollbackErr) "rollback failed after context cancellation"), 0, 1)
        | none => (some (WrapError (some env.ctxErr) "transaction cancelled before commit"), 0, 1)
      else
        match env.commitResult with
        | some commitErr => (some (WrapError (some commitErr) "failed to commit transaction"), 1, 0)
        | none => (none, 1, 0)

/-- `transactionWithContext`: the initial context check, `BeginTx`, the body,
and the deferred cleanup with its `recover()`. -/
def transactionWithContext (env : TxEnv) : TxResult :=
  if env.ctxDoneAtStart then
    ⟨some (WrapError (some env.ctxErr) "transaction cancelled before start"), 0, 0⟩
  else
    match env.beginResult with
    | some e => ⟨some (WrapError (some e) "failed to start transaction"), 0, 0⟩
    | none =>
      let outcome :=
        match runTxBody env with
        | .error p => txCleanup env (some p) none
        | .ok e => txCleanup env none e
      ⟨outcome.1, outcome.2.1, outcome.2.2⟩

/- The retry coordinator (`transactionWithRetryAndContext`).  The claims
about it do not involve mid-retry cancellation, so the retry-loop context is
modelled as never done; each attempt's `transactionWithContext` result is an
arbitrary function of the attempt index. -/

/-- The backoff the loop sleeps before retry attempt `attempt`:
`attempt² ` seconds capped at 10 seconds, transcribed from the source. -/
def backoffSeconds (attempt : Nat) : Nat :=
  let backoffDuration := attempt * attempt
  if backoffDuration > 10 then 10 else backoffDuration

/-- Result of a `TransactionWithRetry` run: final error, number of attempts
executed, and the backoff durations (in seconds) slept between attempts. -/
structure RetryResult where
  error : Option GoError
  attempts : Nat
  backoffs : List Nat
deriving Repr, DecidableEq

/-- The retry loop from a given attempt index with the given fuel
(`maxRetries + 1 - attempt` iterations remain) and last recorded error.
Running out of fuel is the loop exhausting its bound, which wraps the last
error; otherwise sleep the backoff (when `attempt > 0`), run the attempt,
stop on success or on a non-retryable error, and otherwise recurse. -/
def retryFrom (res : Nat → Option GoError) : Nat → Nat → Option GoError → RetryResult
  | 0, _, lastError =>
    ⟨some (WrapError lastError "transaction failed after maximum retries"), 0, []⟩
  | fuel + 1, attempt, _ =>
    let sleep := if attempt > 0 then [backoffSeconds attempt] else []
    match res attempt with
    | none => ⟨none, 1, sleep⟩
    | some e =>
      if isRetryableTransactionError (some e) then
        let r := retryFrom res fuel (attempt + 1) (some e)
        ⟨r.error, r.attempts + 1, sleep ++ r.backoffs⟩
      else ⟨some e, 1, sleep⟩

/-- The `maxRetries < 0` clamp at the top of `transactionWithRetryAndContext`. -/
def clampRetries (maxRetries : Int) : Nat :=
  if maxRetries < 0 then 0 else maxRetries.toNat

/-- `transactionWithRetryAndContext`: clamp `maxRetries`, then run the loop
(`maxRetries + 1` iterations of fuel starting at attempt 0). -/
def transactionWithRetryAndContext (res : Nat → Option GoError) (maxRetries : Int) : RetryResult :=
  retryFrom res (clampRetries maxRetries + 1) 0 none

/- The connection manager (`connection.go`): option validation before any
connection is opened. -/

/-- `models.DatabaseOptions`. -/
structure DatabaseOptions where
  Host : String
  Port : String
  DatabaseName : String
  Username : String
  Password : String
  SSLMode : String
deriving Repr, DecidableEq

/-- The `missing` list accumulated by `validateDatabaseOptions`, in source
order. -/
def missingOptions (o : DatabaseOptions) : List String :=
  (if goTrimSpace o.Username = "" then ["DATABASE_USERNAME"] else []) ++
  (if goTrimSpace o.Password = "" then ["DATABASE_PASSWORD"] else []) ++
  (if goTrimSpace o.Host = "" then ["DATABASE_HOST"] else []) ++
  (if goTrimSpace o.Port = "" then ["DATABASE_PORT"] else []) ++
  (if goTrimSpace o.DatabaseName = "" then ["DATABASE_NAME"] else []) ++
  (if goTrimSpace o.SSLMode = "" then ["DATABASE_SSL_MODE"] else [])

/-- `validateDatabaseOptions`: an error naming every missing option, or nil. -/
def validateDatabaseOptions (o : DatabaseOptions) : Option GoError :=
  if missingOptions o = [] then none
  else
    some (GoError.simple
      (".env file is missing required database option(s): " ++ goJoin ", " (missingOptions o)))

/-- How far `connectToDatabaseWithContext` gets on the validation phase:
either it returns the validation error before `sql.Open`, or it proceeds to
open the connection. -/
inductive ConnectStage where
  | failedValidation (e : GoError)
  | proceededToOpen
deriving Repr, DecidableEq

/-- The validation phase of `connectToDatabaseWithContext` (context not
done): validate the assembled options and stop before `sql.Open` on error. -/
def connectValidation (o : DatabaseOptions) : ConnectStage :=
  match validateDatabaseOptions o with
  | some e => ConnectStage.failedValidation e
  | none => ConnectStage.proceededToOpen

/- Concrete fixtures used by the scenario theorems and witnesses. -/

/-- A `lock_not_available` driver error (SQL state 55P03). -/
def lockTimeoutErr : GoError :=
  GoError.pq "55P03" "" "" "" "canceling statement due to lock timeout"

/-- A unique-violation driver error on constraint `users_email_key`. -/
def dupUsersEmailErr : GoError :=
  GoError.pq "23505" "users_email_key" "users" "email"
    "duplicate key value violates unique constraint"

/-- A recognized driver error whose SQL-state code is none of the listed
conditions. -/
def unlistedPqErr : GoError := GoError.pq "99999" "" "" "" "strange driver failure"

/-- A non-driver error exposing no SQL-state code. -/
def plainErr : GoError := GoError.simple "plain failure"

/-- A non-driver error whose message mentions a connection timeout. -/
def flakyNetErr : GoError := GoError.simple "connection timeout while contacting database"

/-- Executor environment: the operation fails and the rollback also fails. -/
def opErrRollbackFailEnv : TxEnv :=
  ⟨false, false, false, GoError.ctxCanceled, none,
    OpOutcome.err (GoError.simple "op failed"), some (GoError.simple "driver: bad connection"), none⟩

/-- Executor environment: the operation panics and the rollback fails. -/
def panicRollbackFailEnv : TxEnv :=
  ⟨false, false, false, GoError.ctxCanceled, none,
    OpOutcome.panicWith "boom", some (GoError.simple "driver: bad connection"), none⟩

/-- Executor environment: everything succeeds. -/
def okTxEnv : TxEnv :=
  ⟨false, false, false, GoError.ctxCanceled, none, OpOutcome.ok, none, none⟩

/-- Executor environment: the operation panics with `"boom"`, rollback
succeeds. -/
def panicTxEnv : TxEnv :=
  ⟨false, false, false, GoError.ctxCanceled, none, OpOutcome.panicWith "boom", none, none⟩

/-- Connection options with username, host and port missing or whitespace. -/
def sparseOptions : DatabaseOptions := ⟨"", " ", "db", "", "pw", "require"⟩

/-! Claim theorems. -/

/-- C1: the spec claims that when the operation fails (or panics) and the
rollback also fails, the returned error combines the rollback error with
the original cause.  The code instead overwrites the named return value
with a wrapper around the rollback error alone (the source comment at that
assignment even says "combine errors"), so the original operation error /
panic payload is not in the returned error's message or unwrap chain. -/
theorem transaction_rollback_failure_discards_original_cause :
    ((transactionWithContext opErrRollbackFailEnv).error =
       some (GoError.wrapped "rollback failed" (GoError.simple "driver: bad connection")) ∧
     GoError.simple "op failed" ∉
       ((transactionWithContext opErrRollbackFailEnv).error.getD (GoError.simple "")).chain ∧
     goContains
       (((transactionWithContext opErrRollbackFailEnv).error.getD (GoError.simple "")).errorString)
       "op failed" = false) ∧
    ((transactionWithContext panicRollbackFailEnv).error =
       some (GoError.wrapped "rollback failed after panic" (GoError.simple "driver: bad connection")) ∧
     goContains
       (((transactionWithContext panicRollbackFailEnv).error.getD (GoError.simple "")).errorString)
       "boom" = false) := by
  decide

/-- C3 counterexample: the classifier maps a recognized driver error with an
unlisted SQL-state code to kind `unknown` (not `generic`, as claimed), and a
non-driver error to kind `generic` (not `unknown`, as claimed). -/
theorem classifier_kind_swap_counterexample :
    ((AnalyzeDatabaseError (some unlistedPqErr)).map DatabaseError.ErrorType = some "unknown" ∧
     (AnalyzeDatabaseError (some unlistedPqErr)).map DatabaseError.ErrorType ≠ some "generic") ∧
    ((AnalyzeDatabaseError (some plainErr)).map DatabaseError.ErrorType = some "generic" ∧
     (AnalyzeDatabaseError (some plainErr)).map DatabaseError.ErrorType ≠ some "unknown") := by
  decide

/-- C8: a unique-constraint violation with constraint name `users_email_key`
classifies to kind `duplicate` with message `"email already exists"` (which
contains that text), and `ShouldRetryError` returns false for it. -/
theorem duplicate_users_email_key_classification :
    (AnalyzeDatabaseError (some dupUsersEmailErr)).map DatabaseError.ErrorType = some "duplicate" ∧
    ((AnalyzeDatabaseError (some dupUsersEmailErr)).map DatabaseError.Message).getD "" =
      "email already exists" ∧
    goContains (((AnalyzeDatabaseError (some dupUsersEmailErr)).map DatabaseError.Message).getD "")
      "email already exists" = true ∧
    ShouldRetryError (some dupUsersEmailErr) = false := by
  decide

/-- C10: for a non-driver error whose message contains "connection" and
"timeout", `ShouldRetryError` reports retryable through its message
fallback while `isRetryableTransactionError` classifies it `generic` and
refuses to retry, so `TransactionWithRetry` makes a single attempt. -/
theorem shouldRetry_disagrees_with_retry_loop :
    ShouldRetryError (some flakyNetErr) = true ∧
    isRetryableTransactionError (some flakyNetErr) = false ∧
    (AnalyzeDatabaseError (some flakyNetErr)).map DatabaseError.ErrorType = some "generic" ∧
    (transactionWithRetryAndContext (fun _ => some flakyNetErr) 5).attempts = 1 ∧
    (transactionWithRetryAndContext (fun _ => some flakyNetErr) 5).error = some flakyNetErr := by
  decide

/-- C7 counterexample: in a failing run of retryable errors with
`maxRetries = 5`, the slept backoffs are `[1, 4, 9, 10, 10]` seconds — the
cap makes the last two equal, so the successive backoff durations are not
strictly increasing as claimed. -/
theorem backoff_not_strictly_increasing_counterexample :
    (transactionWithRetryAndContext (fun _ => some lockTimeoutErr) 5).backoffs =
      [1, 4, 9, 10, 10] ∧
    ¬ List.Chain' (· < ·)
      ((transactionWithRetryAndContext (fun _ => some lockTimeoutErr) 5).backoffs) := by
  have hb : (transactionWithRetryAndContext (fun _ => some lockTimeoutErr) 5).backoffs =
      [1, 4, 9, 10, 10] := by decide
  refine ⟨hb, fun h => ?_⟩
  rw [hb] at h
  simp only [List.chain'_cons, List.chain'_singleton, and_true] at h
  omega

/-- C2: once `BeginTx` succeeds, every path of `transactionWithContext`
attempts exactly one of commit / rollback: a successful, uncancelled
operation commits exactly once (also when the commit itself fails — no
rollback follows a failed commit), while an operation error, a panic, or a
cancellation observed before the operation or before commit rolls back
exactly once and never commits. -/
theorem transaction_commit_rollback_exactly_one (env : TxEnv)
    (h1 : env.ctxDoneAtStart = false) (h2 : env.beginResult = none) :
    (transactionWithContext env).commits + (transactionWithContext env).rollbacks = 1 ∧
    (env.ctxDoneBeforeOp = false ∧ env.opResult = OpOutcome.ok ∧
        env.ctxDoneBeforeCommit = false →
      (transactionWithContext env).commits = 1 ∧ (transactionWithContext env).rollbacks = 0) ∧
    (env.opResult ≠ OpOutcome.ok ∨ env.ctxDoneBeforeOp = true ∨ env.ctxDoneBeforeCommit = true →
      (transactionWithContext env).rollbacks = 1 ∧ (transactionWithContext env).commits = 0) := by
  obtain ⟨s, dOp, dCom, ce, b, op, rb, cm⟩ := env
  simp only at h1 h2
  subst h1; subst h2
  cases op <;> cases dOp <;> cases dCom <;> cases rb <;> cases cm <;>
    simp [transactionWithContext, runTxBody, txCleanup, WrapError]

/-- C2 witness: the all-success environment satisfies the hypotheses, and
there the transaction commits once and never rolls back. -/
theorem transaction_commit_rollback_exactly_one_witness :
    okTxEnv.ctxDoneAtStart = false ∧ okTxEnv.beginResult = none ∧
    (transactionWithContext okTxEnv).commits = 1 ∧
    (transactionWithContext okTxEnv).rollbacks = 0 := by
  refine ⟨rfl, rfl, ?_, ?_⟩
  · exact ((transaction_commit_rollback_exactly_one okTxEnv rfl rfl).2.1 ⟨rfl, rfl, rfl⟩).1
  · exact ((transaction_commit_rollback_exactly_one okTxEnv rfl rfl).2.1 ⟨rfl, rfl, rfl⟩).2

/-- C4: when the caller's operation panics, the executor recovers the panic
(the invocation still produces an ordinary `TxResult`), attempts exactly
one rollback and no commit, and — when the rollback succeeds as in the
spec's scenario — returns the error `"transaction panicked: <payload>"`,
whose message carries the panic payload. -/
theorem transaction_panic_recovered_and_rolled_back (env : TxEnv) (p : String)
    (h1 : env.ctxDoneAtStart = false) (h2 : env.beginResult = none)
    (h3 : env.ctxDoneBeforeOp = false) (h4 : env.opResult = OpOutcome.panicWith p) :
    (transactionWithContext env).rollbacks = 1 ∧
    (transactionWithContext env).commits = 0 ∧
    (env.rollbackResult = none →
      (transactionWithContext env).error =
        some (GoError.wrapped "transaction panicked" (GoError.simple p)) ∧
      ((transactionWithContext env).error.getD (GoError.simple "")).errorString =
        "transaction panicked" ++ ": " ++ p) := by
  obtain ⟨s, dOp, dCom, ce, b, op, rb, cm⟩ := env
  simp only at h1 h2 h3 h4
  subst h1; subst h2; subst h3; subst h4
  cases rb <;>
    simp [transactionWithContext, runTxBody, txCleanup, WrapError, GoError.errorString]

/-- C4 witness: the concrete `"boom"` panic environment satisfies the
hypotheses; the executor rolls back once, commits nothing, and returns the
error whose message is `"transaction panicked: boom"` (containing `"boom"`). -/
theorem transaction_panic_recovered_and_rolled_back_witness :
    panicTxEnv.ctxDoneAtStart = false ∧ panicTxEnv.beginResult = none ∧
    panicTxEnv.ctxDoneBeforeOp = false ∧ panicTxEnv.opResult = OpOutcome.panicWith "boom" ∧
    (transactionWithContext panicTxEnv).rollbacks = 1 ∧
    (transactionWithContext panicTxEnv).commits = 0 ∧
    (transactionWithContext panicTxEnv).error =
      some (GoError.wrapped "transaction panicked" (GoError.simple "boom")) ∧
    goContains (((transactionWithContext panicTxEnv).error.getD (GoError.simple "")).errorString)
      "boom" = true := by
  have h := transaction_panic_recovered_and_rolled_back panicTxEnv "boom" rfl rfl rfl rfl
  exact ⟨rfl, rfl, rfl, rfl, h.1, h.2.1, (h.2.2 rfl).1, by decide⟩

/-- C5: when the first attempt's failure classifies to one of the seven
non-retryable kinds, `TransactionWithRetry` executes the operation exactly
once and returns that attempt's error unchanged, for every `maxRetries`. -/
theorem retry_nonretryable_single_attempt (maxRetries : Int)
    (res : Nat → Option GoError) (e : GoError) (dbe : DatabaseError)
    (h0 : res 0 = some e)
    (h1 : AnalyzeDatabaseError (some e) = some dbe)
    (h2 : dbe.ErrorType ∈ (["duplicate", "foreign_key", "not_null", "check_constraint",
        "undefined_table", "undefined_column", "authentication"] : List String)) :
    (transactionWithRetryAndContext res maxRetries).attempts = 1 ∧
    (transactionWithRetryAndContext res maxRetries).error = some e := by
  have hnr : isRetryableTransactionError (some e) = false := by
    unfold isRetryableTransactionError
    by_cases hc : errorsIsCancelOrDeadline e
    · simp [hc]
    · simp only [hc, if_false, Bool.false_eq_true, h1]
      simp only [List.mem_cons, List.not_mem_nil, or_false] at h2
      rcases h2 with h | h | h | h | h | h | h <;> simp [h]
  unfold transactionWithRetryAndContext
  simp [retryFrom, h0, hnr]

/-- C5 witness: a duplicate-key failure on every attempt with a generous
retry budget still runs exactly once and surfaces that error. -/
theorem retry_nonretryable_single_attempt_witness :
    (fun _ : Nat => some dupUsersEmailErr) 0 = some dupUsersEmailErr ∧
    AnalyzeDatabaseError (some dupUsersEmailErr) =
      some ⟨dupUsersEmailErr, "duplicate", "users_email_key", "email already exists",
        "users", "email"⟩ ∧
    "duplicate" ∈ (["duplicate", "foreign_key", "not_null", "check_constraint",
        "undefined_table", "undefined_column", "authentication"] : List String) ∧
    (transactionWithRetryAndContext (fun _ => some dupUsersEmailErr) 7).attempts = 1 ∧
    (transactionWithRetryAndContext (fun _ => some dupUsersEmailErr) 7).error =
      some dupUsersEmailErr := by
  have h := retry_nonretryable_single_attempt 7 (fun _ => some dupUsersEmailErr)
    dupUsersEmailErr
    ⟨dupUsersEmailErr, "duplicate", "users_email_key", "email already exists", "users", "email"⟩
    rfl (by decide) (by decide)
  exact ⟨rfl, by decide, by decide, h.1, h.2⟩

/-- C3 (amended): the classifier maps a recognized driver error whose
SQL-state code is not among the listed conditions to kind `unknown`, and an
error exposing no SQL-state code to kind `generic`; neither kind is
retryable for the transaction retry loop. -/
theorem classifier_unlisted_unknown_nondriver_generic (e : GoError) (p : PqFields) :
    (errorsAsPq e = some p →
      p.code ∉ (["23505", "23503", "23502", "23514", "42P01", "42703", "28000", "28P01",
          "55P03", "53300", "57014"] : List String) →
      (AnalyzeDatabaseError (some e)).map DatabaseError.ErrorType = some "unknown" ∧
      isRetryableTransactionError (some e) = false) ∧
    (errorsAsPq e = none →
      (AnalyzeDatabaseError (some e)).map DatabaseError.ErrorType = some "generic" ∧
      isRetryableTransactionError (some e) = false) := by
  constructor
  · intro hp hcode
    simp only [List.mem_cons, List.mem_singleton, not_or] at hcode
    obtain ⟨c1, c2, c3, c4, c5, c6, c7, c8, c9, c10, c11⟩ := hcode
    have hty : (AnalyzeDatabaseError (some e)).map DatabaseError.ErrorType = some "unknown" := by
      simp [AnalyzeDatabaseError, hp, classifyPqCode, c1, c2, c3, c4, c5, c6, c7, c8, c9, c10, c11]
    refine ⟨hty, ?_⟩
    unfold isRetryableTransactionError
    by_cases hc : errorsIsCancelOrDeadline e
    · simp [hc]
    · simp only [hc, if_false, Bool.false_eq_true]
      simp [AnalyzeDatabaseError, hp, classifyPqCode, c1, c2, c3, c4, c5, c6, c7, c8, c9, c10, c11]
  · intro hp
    have hty : (AnalyzeDatabaseError (some e)).map DatabaseError.ErrorType = some "generic" := by
      simp [AnalyzeDatabaseError, hp]
    refine ⟨hty, ?_⟩
    unfold isRetryableTransactionError
    by_cases hc : errorsIsCancelOrDeadline e
    · simp [hc]
    · simp only [hc, if_false, Bool.false_eq_true]
      simp [AnalyzeDatabaseError, hp]

/-- C3 witness: the concrete unlisted-code driver error and the concrete
non-driver error exercise both halves of the amended classification. -/
theorem classifier_unlisted_unknown_nondriver_generic_witness :
    errorsAsPq unlistedPqErr = some ⟨"99999", "", "", "", "strange driver failure"⟩ ∧
    (AnalyzeDatabaseError (some unlistedPqErr)).map DatabaseError.ErrorType = some "unknown" ∧
    isRetryableTransactionError (some unlistedPqErr) = false ∧
    errorsAsPq plainErr = none ∧
    (AnalyzeDatabaseError (some plainErr)).map DatabaseError.ErrorType = some "generic" ∧
    isRetryableTransactionError (some plainErr) = false := by
  have h1 := (classifier_unlisted_unknown_nondriver_generic unlistedPqErr
    ⟨"99999", "", "", "", "strange driver failure"⟩).1 (by decide) (by decide)
  have h2 := (classifier_unlisted_unknown_nondriver_generic plainErr
    ⟨"99999", "", "", "", "strange driver failure"⟩).2 (by decide)
  exact ⟨by decide, h1.1, h1.2, by decide, h2.1, h2.2⟩

/-- Helper: if the attempts at indices `a, a+1, …, a+k-1` all fail with
retryable errors and attempt `a+k` returns nil, the loop started at attempt
`a` (with enough fuel) executes exactly `k+1` attempts and ends with nil. -/
theorem retryFrom_halts_on_first_success (res : Nat → Option GoError) :
    ∀ (k fuel a : Nat) (last : Option GoError), k < fuel →
    (∀ j, j < k → res (a + j) ≠ none ∧ isRetryableTransactionError (res (a + j)) = true) →
    res (a + k) = none →
    (retryFrom res fuel a last).attempts = k + 1 ∧ (retryFrom res fuel a last).error = none := by
  intro k
  induction k with
  | zero =>
    intro fuel a last hk _ hres
    obtain ⟨f, rfl⟩ : ∃ f, fuel = f + 1 := ⟨fuel - 1, by omega⟩
    simp only [Nat.add_zero] at hres
    simp [retryFrom, hres]
  | succ k ih =>
    intro fuel a last hk hprev hres
    obtain ⟨f, rfl⟩ : ∃ f, fuel = f + 1 := ⟨fuel - 1, by omega⟩
    have h0 := hprev 0 (by omega)
    simp only [Nat.add_zero] at h0
    obtain ⟨e, he⟩ : ∃ e, res a = some e := by
      cases hra : res a
      · exact absurd hra h0.1
      · exact ⟨_, rfl⟩
    have hr : isRetryableTransactionError (some e) = true := by
      rw [← he]; exact h0.2
    have ihm := ih f (a + 1) (some e) (by omega)
      (fun j hj => by
        have hq : a + 1 + j = a + (j + 1) := by omega
        rw [hq]; exact hprev (j + 1) (by omega))
      (by
        have hq : a + 1 + k = a + (k + 1) := by omega
        rw [hq]; exact hres)
    simp [retryFrom, he, hr, ihm.1, ihm.2]

/-- C6: with `maxRetries = 2` and an operation failing with a retryable
`lock_timeout` classification on every attempt, the loop makes exactly 3
attempts and returns the last error wrapped in the retry-exhaustion context
`"transaction failed after maximum retries"`; and whenever the attempts
before index `k` fail retryably and attempt `k` returns nil, the loop halts
at attempt `k` with success. -/
theorem retry_exhaustion_and_halt_on_success :
    ((transactionWithRetryAndContext (fun _ => some lockTimeoutErr) 2).attempts = 3 ∧
     (transactionWithRetryAndContext (fun _ => some lockTimeoutErr) 2).error =
       some (GoError.wrapped "transaction failed after maximum retries" lockTimeoutErr)) ∧
    (∀ (res : Nat → Option GoError) (maxRetries : Int) (k : Nat),
      k ≤ clampRetries maxRetries →
      (∀ j, j < k → res j ≠ none ∧ isRetryableTransactionError (res j) = true) →
      res k = none →
      (transactionWithRetryAndContext res maxRetries).attempts = k + 1 ∧
      (transactionWithRetryAndContext res maxRetries).error = none) := by
  constructor
  · constructor
    · decide
    · decide
  · intro res maxRetries k hk hprev hres
    exact retryFrom_halts_on_first_success res k (clampRetries maxRetries + 1) 0 none
      (by omega) (fun j hj => by simpa using hprev j hj) (by simpa using hres)

/-- C6 witness: a first-attempt success with retry budget 3 halts
immediately with one attempt and no error. -/
theorem retry_exhaustion_and_halt_on_success_witness :
    (0 ≤ clampRetries 3) ∧
    ((fun _ : Nat => (none : Option GoError)) 0 = none) ∧
    (transactionWithRetryAndContext (fun _ => (none : Option GoError)) 3).attempts = 1 ∧
    (transactionWithRetryAndContext (fun _ => (none : Option GoError)) 3).error = none := by
  have h := retry_exhaustion_and_halt_on_success.2 (fun _ => (none : Option GoError)) 3 0
    (by decide) (fun j hj => absurd hj (Nat.not_lt_zero j)) rfl
  exact ⟨by decide, rfl, h.1, h.2⟩

/-- Helper: the backoff computed by the loop is monotone in the attempt
index. -/
theorem backoffSeconds_le_succ (a : Nat) : backoffSeconds a ≤ backoffSeconds (a + 1) := by
  have hm : a * a ≤ (a + 1) * (a + 1) := Nat.mul_le_mul (Nat.le_succ a) (Nat.le_succ a)
  simp only [backoffSeconds]
  by_cases h1 : a * a > 10
  · have h2 : (a + 1) * (a + 1) > 10 := lt_of_lt_of_le h1 hm
    simp [h1, h2]
  · by_cases h2 : (a + 1) * (a + 1) > 10
    · simp [h1, h2]; omega
    · simp [h1, h2]; exact hm

/-- Helper: every slept backoff of a loop started at attempt `a` is at least
the backoff of attempt `a`, and the slept backoffs are pairwise
non-decreasing in order. -/
theorem retryFrom_backoffs_monotone (res : Nat → Option GoError) :
    ∀ (fuel a : Nat) (last : Option GoError),
    List.Chain' (· ≤ ·) ((retryFrom res fuel a last).backoffs) ∧
    (∀ x ∈ (retryFrom res fuel a last).backoffs, backoffSeconds a ≤ x) := by
  intro fuel
  induction fuel with
  | zero => intro a last; simp [retryFrom]
  | succ f ih =>
    intro a last
    cases hra : res a with
    | none =>
      by_cases ha : a > 0 <;> simp [retryFrom, hra, ha]
    | some e =>
      by_cases hr : isRetryableTransactionError (some e) = true
      · have ihm := ih (a + 1) (some e)
        have hstep : backoffSeconds a ≤ backoffSeconds (a + 1) := backoffSeconds_le_succ a
        have hunf : (retryFrom res (f + 1) a last).backoffs =
            (if a > 0 then [backoffSeconds a] else []) ++
              (retryFrom res f (a + 1) (some e)).backoffs := by
          simp [retryFrom, hra, hr]
        rw [hunf]
        by_cases ha : a > 0
        · rw [if_pos ha]
          constructor
          · rw [List.chain'_append]
            refine ⟨List.chain'_singleton _, ihm.1, ?_⟩
            intro x hx y hy
            simp only [List.getLast?_singleton, Option.mem_def, Option.some_inj] at hx
            subst hx
            have hy2 : y ∈ (retryFrom res f (a + 1) (some e)).backoffs :=
              List.mem_of_mem_head? hy
            exact le_trans hstep (ihm.2 y hy2)
          · intro x hx
            rcases List.mem_append.mp hx with hx | hx
            · rw [List.mem_singleton] at hx
              subst hx; exact le_refl _
            · exact le_trans hstep (ihm.2 x hx)
        · rw [if_neg ha, List.nil_append]
          exact ⟨ihm.1, fun x hx => le_trans hstep (ihm.2 x hx)⟩
      · by_cases ha : a > 0 <;> simp [retryFrom, hra, hr, ha]

/-- C7 (amended): the backoff slept before retry attempt `k` equals
`min(10 seconds, k*k seconds)` (quadratic, capped at 10 seconds); the
successive backoffs of any run are non-decreasing, and strictly increasing
only while the quadratic term is below the cap. -/
theorem backoff_quadratic_capped_monotone :
    (∀ k, backoffSeconds k = min 10 (k * k)) ∧
    (∀ k, backoffSeconds k ≤ backoffSeconds (k + 1)) ∧
    (∀ k, k * k < 10 → backoffSeconds k < backoffSeconds (k + 1)) ∧
    (∀ (res : Nat → Option GoError) (maxRetries : Int),
      List.Chain' (· ≤ ·) ((transactionWithRetryAndContext res maxRetries).backoffs)) := by
  refine ⟨?_, backoffSeconds_le_succ, ?_, ?_⟩
  · intro k
    simp only [backoffSeconds]
    generalize k * k = m
    by_cases h : m > 10 <;> simp [h] <;> omega
  · intro k hk
    have hk3 : k ≤ 3 := by
      by_contra hgt
      push_neg at hgt
      have : 4 * 4 ≤ k * k := Nat.mul_le_mul hgt hgt
      omega
    interval_cases k <;> decide
  · intro res maxRetries
    exact (retryFrom_backoffs_monotone res (clampRetries maxRetries + 1) 0 none).1

/-- C7 witness: backoff 4 hits the cap (`min 10 16`), backoff strictly grows
from attempt 2 to 3, and the concrete always-failing run with
`maxRetries = 5` has non-decreasing backoffs. -/
theorem backoff_quadratic_capped_monotone_witness :
    backoffSeconds 4 = min 10 (4 * 4) ∧
    (2 * 2 < 10 ∧ backoffSeconds 2 < backoffSeconds 3) ∧
    List.Chain' (· ≤ ·)
      ((transactionWithRetryAndContext (fun _ => some lockTimeoutErr) 5).backoffs) :=
  ⟨backoff_quadratic_capped_monotone.1 4,
   ⟨by decide, backoff_quadratic_capped_monotone.2.2.1 2 (by decide)⟩,
   backoff_quadratic_capped_monotone.2.2.2 (fun _ => some lockTimeoutErr) 5⟩

/-- C9: whenever any of the six required connection options is empty or
whitespace, the connection routine stops at validation — before any
connection is opened — with an error whose message names every missing
option (not only the first); it proceeds to open a connection exactly when
all six options are non-empty after trimming. -/
theorem connect_validation_names_all_missing (o : DatabaseOptions) :
    (missingOptions o ≠ [] →
      ∃ e, connectValidation o = ConnectStage.failedValidation e ∧
        ∀ f ∈ missingOptions o, goContains e.errorString f = true) ∧
    (connectValidation o = ConnectStage.proceededToOpen ↔
      (goTrimSpace o.Username ≠ "" ∧ goTrimSpace o.Password ≠ "" ∧ goTrimSpace o.Host ≠ "" ∧
       goTrimSpace o.Port ≠ "" ∧ goTrimSpace o.DatabaseName ≠ "" ∧
       goTrimSpace o.SSLMode ≠ "")) := by
  by_cases h1 : goTrimSpace o.Username = "" <;>
    by_cases h2 : goTrimSpace o.Password = "" <;>
    by_cases h3 : goTrimSpace o.Host = "" <;>
    by_cases h4 : goTrimSpace o.Port = "" <;>
    by_cases h5 : goTrimSpace o.DatabaseName = "" <;>
    by_cases h6 : goTrimSpace o.SSLMode = "" <;>
      simp [connectValidation, validateDatabaseOptions, missingOptions,
        h1, h2, h3, h4, h5, h6, GoError.errorString] <;>
      decide

/-- C9 witness: options missing username, host and port fail validation with
an error naming all three. -/
theorem connect_validation_names_all_missing_witness :
    missingOptions sparseOptions ≠ [] ∧
    (∃ e, connectValidation sparseOptions = ConnectStage.failedValidation e ∧
      ∀ f ∈ missingOptions sparseOptions, goContains e.errorString f = true) :=
  ⟨by decide, (connect_validation_names_all_missing sparseOptions).1 (by decide)⟩
